import Mathlib

/-!
Shallow embedding of `src/main.py`, a FastAPI backend that proxies requests
to the Telegram bot API.  The parts embedded here are the ones the claims
are about: the proxy helper `tg_call` (src/main.py:97-114), the four route
handlers `validate_bot`, `get_my_commands`, `send_message`, `call_method`
(src/main.py:119-155), and the request models (src/main.py:21-37).

Conventions of the embedding:
* JSON values are the inductive `Json`; a Python `dict` body is a
  `PyDict = List (String × Json)` in insertion order.
* The remote side is an input: a function from the outbound request to a
  `PostOutcome` — either a delivered HTTP response or a raised
  `requests.exceptions.RequestException` that is not an `HTTPError`.
  Per the `requests` library's contract, `HTTPError` is raised only by
  `Response.raise_for_status`, never by `requests.post` itself; the
  embedding encodes this by keeping `HTTPError` out of `RequestsError`
  and modelling `raise_for_status` explicitly inside the try block.
* `r.json()` on an undecodable body raises
  `requests.exceptions.JSONDecodeError`, which subclasses
  `RequestException` but not `HTTPError`; a response therefore carries
  `jsonBody : Except String Json` (error = the decode exception's `str`).
* `raise HTTPException(status_code := s, detail := d)` is modelled as the
  result `TgResult.httpException s d`: FastAPI turns it into an HTTP
  response with status `s` whose error body carries `d`, which is what the
  spec calls "responds with status s and body d".
* An exception that no `except` clause of `tg_call` catches (such as the
  `AttributeError` from `data.get` when `data` is not a dict) is the
  result `TgResult.pythonError`.
-/

/-- JSON values, as decoded by `r.json()`. -/
inductive Json where
  | null : Json
  | bool (b : Bool) : Json
  | num (n : Int) : Json
  | str (s : String) : Json
  | arr (elems : List Json) : Json
  | obj (fields : List (String × Json)) : Json

/-- A Python dict with String keys, in insertion order. -/
abbrev PyDict := List (String × Json)

/-- Lookup of a key in a dict, `d[k]` as an `Option`. -/
def lookupDict : PyDict → String → Option Json
  | [], _ => none
  | (k, v) :: rest, key => if k = key then some v else lookupDict rest key

/-- Python truthiness of a JSON value: `None`, `False`, `0`, `""`, `[]`
and `{}` are falsy, everything else truthy. -/
def Json.truthy : Json → Bool
  | .null => false
  | .bool b => b
  | .num n => n != 0
  | .str s => s != ""
  | .arr elems => !elems.isEmpty
  | .obj fields => !fields.isEmpty

/-- Whether a JSON value is an object (a Python dict, the only decoded
value with a `.get` attribute). -/
def Json.isObj : Json → Bool
  | .obj _ => true
  | _ => false

/-- The name Python reports for the type of a decoded JSON value, used in
the `AttributeError` message of `data.get` on a non-dict. -/
def Json.pyTypeName : Json → String
  | .null => "NoneType"
  | .bool _ => "bool"
  | .num _ => "int"
  | .str _ => "str"
  | .arr _ => "list"
  | .obj _ => "dict"

/-- Source: `TELEGRAM_API_BASE = "https://api.telegram.org/bot{token}/{method}"`
(src/main.py:18). -/
def TELEGRAM_API_BASE : String := "https://api.telegram.org/bot{token}/{method}"

/-- Source: `TELEGRAM_API_BASE.format(token=token, method=method)`
(src/main.py:98): Python `str.format` substitutes the two named fields of
the fixed template in one left-to-right pass, yielding this concatenation. -/
def tg_url (token method : String) : String :=
  "https://api.telegram.org/bot" ++ token ++ "/" ++ method

/-- Source: `payload or {}` (src/main.py:100): Python `or` returns `{}`
when `payload` is `None` or an empty (falsy) dict, and `payload` itself
otherwise. -/
def pyOrEmpty : Option PyDict → PyDict
  | none => []
  | some d => if d.isEmpty then [] else d

/-- The outbound POST issued by `requests.post(url, json=payload or {},
timeout=15)` (src/main.py:100). -/
structure OutboundRequest where
  url : String
  body : PyDict
  timeoutSeconds : Nat

/-- The request `tg_call token method payload` issues. -/
def tg_request (token method : String) (payload : Option PyDict) : OutboundRequest :=
  { url := tg_url token method, body := pyOrEmpty payload, timeoutSeconds := 15 }

/-- An HTTP response delivered by the remote: the transport status code,
the outcome of `r.json()` (`Except.error` carries the `str` of the
`JSONDecodeError` when the body is undecodable), and the `str` of the
`HTTPError` that `r.raise_for_status()` raises when the status is an
error status. -/
structure HttpResponse where
  status : Nat
  jsonBody : Except String Json
  httpErrMsg : String

/-- A `requests.exceptions.RequestException` raised by `requests.post`
itself — connection refused, DNS resolution failure, timeout (the call is
bounded at `timeout=15` seconds), or another transport failure.  None of
these is an `HTTPError`: that subclass is raised only by
`raise_for_status`.  Each constructor carries `str(e)`. -/
inductive RequestsError where
  | connectionRefused (msg : String)
  | dnsFailure (msg : String)
  | timeout (msg : String)
  | otherTransport (msg : String)

/-- Python `str(e)` of a transport exception. -/
def RequestsError.toStr : RequestsError → String
  | .connectionRefused msg => msg
  | .dnsFailure msg => msg
  | .timeout msg => msg
  | .otherTransport msg => msg

/-- What `requests.post` does: deliver a response, or raise a transport
exception. -/
inductive PostOutcome where
  | response (r : HttpResponse)
  | failure (e : RequestsError)

/-- Source: `r.raise_for_status()` (src/main.py:101) raises `HTTPError`
exactly when the status code is a 4xx client error or 5xx server error
(`400 <= status < 600`). -/
def raisesForStatus (status : Nat) : Bool :=
  decide (400 ≤ status ∧ status < 600)

/-- Outcome of the `try` block of `tg_call` (src/main.py:99-105), with the
binding state of the local variable `r` recorded at the point each
exception is raised, so that the `'r' in locals()` check of the handler
can be modelled faithfully. -/
inductive TryOutcome where
  | returned (data : Json)
  | raisedHTTPException (status : Nat) (detail : Json)
  | raisedHTTPError (rBound : Option HttpResponse) (msg : String)
  | raisedRequestException (rBound : Option HttpResponse) (msg : String)
  | raisedOther (msg : String)

/-- The `try` block of `tg_call` (src/main.py:99-105):
`r = requests.post(url, json=payload or {}, timeout=15)`, then
`r.raise_for_status()`, then `data = r.json()`, then
`if not data.get("ok", False): raise HTTPException(400, detail=data)`,
else `return data`.  `data.get` on a non-dict raises `AttributeError`. -/
def tryBlock (outcome : PostOutcome) : TryOutcome :=
  match outcome with
  | .failure e => .raisedRequestException none e.toStr
  | .response r =>
    if raisesForStatus r.status then
      .raisedHTTPError (some r) r.httpErrMsg
    else
      match r.jsonBody with
      | .error msg => .raisedRequestException (some r) msg
      | .ok data =>
        match data with
        | .obj fields =>
          if ((lookupDict fields "ok").getD (Json.bool false)).truthy then
            .returned (Json.obj fields)
          else
            .raisedHTTPException 400 (Json.obj fields)
        | other =>
          .raisedOther ("AttributeError: " ++ other.pyTypeName
            ++ " object has no attribute get")

/-- Result of one `tg_call` invocation: the returned data, a raised
`fastapi.HTTPException` (status code and `detail`), or an exception no
handler catches. -/
inductive TgResult where
  | success (data : Json)
  | httpException (status : Nat) (detail : Json)
  | pythonError (msg : String)

/-- The `except` clauses of `tg_call` (src/main.py:106-114).
`except HTTPError as e`: try `return_data = r.json()` (any exception,
including a `NameError` were `r` unbound, falls back to
`{"description": str(e)}`), then
`raise HTTPException(status_code=r.status_code if 'r' in locals() else 500,
detail=return_data)`.
`except RequestException as e`:
`raise HTTPException(status_code=502, detail={"description": str(e)})`.
An `HTTPException` raised inside the try block matches neither clause and
propagates; so does any other exception. -/
def handleExcept (t : TryOutcome) : TgResult :=
  match t with
  | .returned data => .success data
  | .raisedHTTPException status detail => .httpException status detail
  | .raisedHTTPError rBound msg =>
    let returnData :=
      match rBound with
      | some r =>
        match r.jsonBody with
        | .ok j => j
        | .error _ => Json.obj [("description", Json.str msg)]
      | none => Json.obj [("description", Json.str msg)]
    let status := match rBound with | some r => r.status | none => 500
    .httpException status returnData
  | .raisedRequestException _ msg =>
    .httpException 502 (Json.obj [("description", Json.str msg)])
  | .raisedOther msg => .pythonError msg

/-- Source: `tg_call` (src/main.py:97-114).  Takes the remote's behaviour
as a function of the outbound request; returns the list of outbound
requests issued (always exactly one) together with the result. -/
def tg_call (token method : String) (payload : Option PyDict)
    (remote : OutboundRequest → PostOutcome) : List OutboundRequest × TgResult :=
  let req := tg_request token method payload
  ([req], handleExcept (tryBlock (remote req)))

/-- Source: `class TokenBody` (src/main.py:21-22). -/
structure TokenBody where
  token : String

/-- Source: `class SendMessageBody` (src/main.py:25-31). -/
structure SendMessageBody where
  token : String
  chat_id : String
  text : String
  parse_mode : Option String
  disable_web_page_preview : Option Bool
  disable_notification : Option Bool

/-- Source: `class CallMethodBody` (src/main.py:34-37); `params` defaults
to `{}` when absent from the request body. -/
structure CallMethodBody where
  token : String
  method : String
  params : PyDict

/-- Pydantic construction of `CallMethodBody` from a request in which
`params` may be omitted: the declared default `{}` is used when it is. -/
def CallMethodBody.ofRequest (token method : String) (params : Option PyDict) :
    CallMethodBody :=
  { token := token, method := method, params := params.getD [] }

/-- Source: `validate_bot` (src/main.py:119-123): `tg_call(body.token, "getMe")`. -/
def validate_bot (body : TokenBody) (remote : OutboundRequest → PostOutcome) :
    List OutboundRequest × TgResult :=
  tg_call body.token "getMe" none remote

/-- Source: `get_my_commands` (src/main.py:126-130):
`tg_call(body.token, "getMyCommands")`. -/
def get_my_commands (body : TokenBody) (remote : OutboundRequest → PostOutcome) :
    List OutboundRequest × TgResult :=
  tg_call body.token "getMyCommands" none remote

/-- Source: the payload assembly of `send_message` (src/main.py:136-145):
start from `{"chat_id": body.chat_id, "text": body.text}` and add each
optional field only when it is not `None`. -/
def send_message_payload (body : SendMessageBody) : PyDict :=
  let p0 : PyDict := [("chat_id", Json.str body.chat_id), ("text", Json.str body.text)]
  let p1 := match body.parse_mode with
    | some v => p0 ++ [("parse_mode", Json.str v)]
    | none => p0
  let p2 := match body.disable_web_page_preview with
    | some v => p1 ++ [("disable_web_page_preview", Json.bool v)]
    | none => p1
  match body.disable_notification with
  | some v => p2 ++ [("disable_notification", Json.bool v)]
  | none => p2

/-- Source: `send_message` (src/main.py:133-148):
`tg_call(body.token, "sendMessage", payload)`. -/
def send_message (body : SendMessageBody) (remote : OutboundRequest → PostOutcome) :
    List OutboundRequest × TgResult :=
  tg_call body.token "sendMessage" (some (send_message_payload body)) remote

/-- Source: `call_method` (src/main.py:151-155):
`tg_call(body.token, body.method, body.params)`. -/
def call_method (body : CallMethodBody) (remote : OutboundRequest → PostOutcome) :
    List OutboundRequest × TgResult :=
  tg_call body.token body.method (some body.params) remote

/-! Helper lemmas and definitions shared by the claim theorems. -/

/-- The `detail` that the `HTTPError` handler of `tg_call`
(src/main.py:107-112) attaches: the error body decoded as JSON when
decoding succeeds, otherwise a synthesized descriptor containing the
`HTTPError`'s string representation. -/
def transportErrorDetail (r : HttpResponse) : Json :=
  match r.jsonBody with
  | .ok j => j
  | .error _ => Json.obj [("description", Json.str r.httpErrMsg)]

theorem pyOrEmpty_some (d : PyDict) : pyOrEmpty (some d) = d := by
  cases d <;> simp [pyOrEmpty]

theorem raisesForStatus_of_2xx {s : Nat} (h2 : 200 ≤ s ∧ s < 300) :
    raisesForStatus s = false := by
  simp only [raisesForStatus, decide_eq_false_iff_not, not_and, not_lt]
  omega

/-- C1: for every remote response delivered with transport status 200
whose body decodes to a JSON object with the `ok` field `false` or
absent, the handler responds with HTTP status 400 and a body identical
to the remote's decoded JSON, unreshaped. -/
theorem tg_call_ok_false_yields_400 (token method : String)
    (payload : Option PyDict) (remote : OutboundRequest → PostOutcome)
    (r : HttpResponse) (fields : List (String × Json))
    (hr : remote (tg_request token method payload) = .response r)
    (hs : r.status = 200)
    (hb : r.jsonBody = .ok (Json.obj fields))
    (hok : lookupDict fields "ok" = some (Json.bool false) ∨
           lookupDict fields "ok" = none) :
    (tg_call token method payload remote).2 = .httpException 400 (Json.obj fields) := by
  have hraise : raisesForStatus r.status = false := by
    rw [hs]; rfl
  rcases hok with h | h <;>
    simp [tg_call, tryBlock, handleExcept, hr, hraise, hb, h, Json.truthy]

theorem tg_call_ok_false_yields_400_witness :
    (tg_call "tok" "getMe" none
      (fun _ => .response ⟨200, .ok (Json.obj [("ok", Json.bool false), ("description", Json.str "bad")]), "m"⟩)).2
      = .httpException 400 (Json.obj [("ok", Json.bool false), ("description", Json.str "bad")]) :=
  tg_call_ok_false_yields_400 "tok" "getMe" none
    (fun _ => .response ⟨200, .ok (Json.obj [("ok", Json.bool false), ("description", Json.str "bad")]), "m"⟩)
    ⟨200, .ok (Json.obj [("ok", Json.bool false), ("description", Json.str "bad")]), "m"⟩
    [("ok", Json.bool false), ("description", Json.str "bad")]
    rfl rfl rfl (Or.inl rfl)

/-- C2 counterexample: a remote response with transport status 403 whose
body decodes to `{"ok": false}` is surfaced with status 403 (the
transport-status path), not 400 — the `ok`-false path does not take
priority over the transport-status path, because `raise_for_status` runs
before the body is inspected. -/
theorem tg_call_ok_false_not_priority_counterexample :
    (tg_call "tok" "getChat" none
      (fun _ => .response ⟨403, .ok (Json.obj [("ok", Json.bool false)]), "403 Client Error"⟩)).2
      = .httpException 403 (Json.obj [("ok", Json.bool false)]) ∧ (403 : Nat) ≠ 400 :=
  ⟨rfl, by decide⟩

/-- C2 amended: the `ok`-false-or-absent path yields status 400 with the
full decoded body only when the transport status is not an HTTP error
status; when the transport status is an error status (4xx/5xx), the
transport-status path takes priority and the remote's status is
propagated with `transportErrorDetail`, regardless of the `ok` field. -/
theorem tg_call_ok_false_only_without_transport_error (token method : String)
    (payload : Option PyDict) (remote : OutboundRequest → PostOutcome)
    (r : HttpResponse)
    (hr : remote (tg_request token method payload) = .response r) :
    (raisesForStatus r.status = true →
      (tg_call token method payload remote).2
        = .httpException r.status (transportErrorDetail r)) ∧
    (raisesForStatus r.status = false →
      ∀ fields, r.jsonBody = .ok (Json.obj fields) →
        (lookupDict fields "ok" = some (Json.bool false) ∨
         lookupDict fields "ok" = none) →
        (tg_call token method payload remote).2 = .httpException 400 (Json.obj fields)) := by
  constructor
  · intro hraise
    simp [tg_call, tryBlock, handleExcept, hr, hraise, transportErrorDetail]
  · intro hraise fields hb hok
    rcases hok with h | h <;>
      simp [tg_call, tryBlock, handleExcept, hr, hraise, hb, h, Json.truthy]

theorem tg_call_ok_false_only_without_transport_error_witness :
    (tg_call "tok" "getChat" none
      (fun _ => .response ⟨403, .ok (Json.obj [("ok", Json.bool false)]), "e"⟩)).2
      = .httpException 403
          (transportErrorDetail ⟨403, .ok (Json.obj [("ok", Json.bool false)]), "e"⟩) :=
  (tg_call_ok_false_only_without_transport_error "tok" "getChat" none
    (fun _ => .response ⟨403, .ok (Json.obj [("ok", Json.bool false)]), "e"⟩)
    ⟨403, .ok (Json.obj [("ok", Json.bool false)]), "e"⟩ rfl).1 rfl

/-- C3: for every remote response with a 4xx/5xx transport status, the
handler responds with the remote's original status code; the body is the
remote's error body decoded as JSON when decoding succeeds, and otherwise
a synthesized descriptor containing the transport error's string
representation. -/
theorem tg_call_transport_error_propagates_status (token method : String)
    (payload : Option PyDict) (remote : OutboundRequest → PostOutcome)
    (r : HttpResponse)
    (hr : remote (tg_request token method payload) = .response r)
    (hs : 400 ≤ r.status ∧ r.status < 600) :
    (tg_call token method payload remote).2
      = .httpException r.status (transportErrorDetail r) ∧
    (∀ j, r.jsonBody = .ok j → transportErrorDetail r = j) ∧
    (∀ msg, r.jsonBody = .error msg →
      transportErrorDetail r = Json.obj [("description", Json.str r.httpErrMsg)]) := by
  have hraise : raisesForStatus r.status = true := by
    simp only [raisesForStatus, decide_eq_true_eq]; exact hs
  refine ⟨?_, ?_, ?_⟩
  · simp [tg_call, tryBlock, handleExcept, hr, hraise, transportErrorDetail]
  · intro j hj; simp [transportErrorDetail, hj]
  · intro msg hmsg; simp [transportErrorDetail, hmsg]

theorem tg_call_transport_error_propagates_status_witness :
    (tg_call "tok" "sendMessage" none
      (fun _ => .response ⟨403, .ok (Json.obj [("description", Json.str "Forbidden")]), "e"⟩)).2
      = .httpException 403
          (transportErrorDetail ⟨403, .ok (Json.obj [("description", Json.str "Forbidden")]), "e"⟩) ∧
    transportErrorDetail ⟨403, .ok (Json.obj [("description", Json.str "Forbidden")]), "e"⟩
      = Json.obj [("description", Json.str "Forbidden")] :=
  have h := tg_call_transport_error_propagates_status "tok" "sendMessage" none
    (fun _ => .response ⟨403, .ok (Json.obj [("description", Json.str "Forbidden")]), "e"⟩)
    ⟨403, .ok (Json.obj [("description", Json.str "Forbidden")]), "e"⟩ rfl (by decide)
  ⟨h.1, h.2.1 (Json.obj [("description", Json.str "Forbidden")]) rfl⟩

/-- C4: the outbound call is bounded at 15 seconds, and every other
transport failure — connection refused, DNS failure, timeout, or a
response whose body fails to decode as JSON — makes the handler respond
with fixed status 502 and the single-field body
`{"description": <stringified error>}`. -/
theorem tg_call_transport_failure_yields_502 (token method : String)
    (payload : Option PyDict) (remote : OutboundRequest → PostOutcome) :
    (tg_request token method payload).timeoutSeconds = 15 ∧
    (∀ e, remote (tg_request token method payload) = .failure e →
      (tg_call token method payload remote).2
        = .httpException 502 (Json.obj [("description", Json.str e.toStr)])) ∧
    (∀ r msg, remote (tg_request token method payload) = .response r →
      raisesForStatus r.status = false → r.jsonBody = .error msg →
      (tg_call token method payload remote).2
        = .httpException 502 (Json.obj [("description", Json.str msg)])) := by
  refine ⟨rfl, ?_, ?_⟩
  · intro e he
    simp [tg_call, tryBlock, handleExcept, he]
  · intro r msg hr hraise hmsg
    simp [tg_call, tryBlock, handleExcept, hr, hraise, hmsg]

theorem tg_call_transport_failure_yields_502_witness :
    (tg_call "tok" "getMe" none
      (fun _ => .failure (.dnsFailure "name resolution failed"))).2
      = .httpException 502 (Json.obj [("description", Json.str "name resolution failed")]) ∧
    (tg_call "tok" "getMe" none
      (fun _ => .failure (.timeout "read timed out after 15s"))).2
      = .httpException 502 (Json.obj [("description", Json.str "read timed out after 15s")]) ∧
    (tg_call "tok" "getMe" none
      (fun _ => .response ⟨200, .error "Expecting value: line 1 column 1", "m"⟩)).2
      = .httpException 502 (Json.obj [("description", Json.str "Expecting value: line 1 column 1")]) :=
  ⟨(tg_call_transport_failure_yields_502 "tok" "getMe" none
      (fun _ => .failure (.dnsFailure "name resolution failed"))).2.1
      (.dnsFailure "name resolution failed") rfl,
   (tg_call_transport_failure_yields_502 "tok" "getMe" none
      (fun _ => .failure (.timeout "read timed out after 15s"))).2.1
      (.timeout "read timed out after 15s") rfl,
   (tg_call_transport_failure_yields_502 "tok" "getMe" none
      (fun _ => .response ⟨200, .error "Expecting value: line 1 column 1", "m"⟩)).2.2
      ⟨200, .error "Expecting value: line 1 column 1", "m"⟩
      "Expecting value: line 1 column 1" rfl rfl rfl⟩

/-- C5: for every valid SendMessage input, the outbound parameter mapping
contains `chat_id` and `text`; each optional field appears with its given
value exactly when it is present in the input; and when all optional
fields are omitted, the mapping contains exactly the keys `chat_id` and
`text` — no null-valued optional keys are ever sent. -/
theorem send_message_payload_fields (b : SendMessageBody) :
    lookupDict (send_message_payload b) "chat_id" = some (Json.str b.chat_id) ∧
    lookupDict (send_message_payload b) "text" = some (Json.str b.text) ∧
    (∀ v, b.parse_mode = some v →
      lookupDict (send_message_payload b) "parse_mode" = some (Json.str v)) ∧
    (b.parse_mode = none →
      lookupDict (send_message_payload b) "parse_mode" = none) ∧
    (∀ v, b.disable_web_page_preview = some v →
      lookupDict (send_message_payload b) "disable_web_page_preview" = some (Json.bool v)) ∧
    (b.disable_web_page_preview = none →
      lookupDict (send_message_payload b) "disable_web_page_preview" = none) ∧
    (∀ v, b.disable_notification = some v →
      lookupDict (send_message_payload b) "disable_notification" = some (Json.bool v)) ∧
    (b.disable_notification = none →
      lookupDict (send_message_payload b) "disable_notification" = none) ∧
    (b.parse_mode = none → b.disable_web_page_preview = none →
      b.disable_notification = none →
      (send_message_payload b).map Prod.fst = ["chat_id", "text"]) := by
  obtain ⟨tok, cid, txt, pm, dw, dn⟩ := b
  rcases pm with _ | v1 <;> rcases dw with _ | v2 <;> rcases dn with _ | v3 <;>
    simp [send_message_payload, lookupDict]

theorem send_message_payload_fields_witness :
    lookupDict (send_message_payload ⟨"tok", "42", "hi", some "HTML", none, none⟩)
      "parse_mode" = some (Json.str "HTML") ∧
    lookupDict (send_message_payload ⟨"tok", "42", "hi", none, none, none⟩)
      "parse_mode" = none ∧
    (send_message_payload ⟨"tok", "42", "hi", none, none, none⟩).map Prod.fst
      = ["chat_id", "text"] :=
  ⟨(send_message_payload_fields ⟨"tok", "42", "hi", some "HTML", none, none⟩).2.2.1 "HTML" rfl,
   (send_message_payload_fields ⟨"tok", "42", "hi", none, none, none⟩).2.2.2.1 rfl,
   (send_message_payload_fields ⟨"tok", "42", "hi", none, none, none⟩).2.2.2.2.2.2.2.2 rfl rfl rfl⟩

/-- C6: the Validate handler issues its outbound call with fixed method
name `getMe` and FetchCommands with fixed method name `getMyCommands`
(each embedded in the outbound URL), and in both cases the outbound
request body is exactly the empty mapping. -/
theorem fixed_method_handlers_empty_body (vb cb : TokenBody)
    (remote remote2 : OutboundRequest → PostOutcome) :
    (validate_bot vb remote).1
      = [{ url := tg_url vb.token "getMe", body := [], timeoutSeconds := 15 }] ∧
    (get_my_commands cb remote2).1
      = [{ url := tg_url cb.token "getMyCommands", body := [], timeoutSeconds := 15 }] :=
  ⟨rfl, rfl⟩

/-- C7: every GenericCall input issues exactly one outbound POST, to the
URL obtained by substituting the credential and the caller-supplied
method name into the fixed template, with the caller-supplied parameter
mapping as the JSON body; and on success (2xx transport status, valid
JSON object body with `ok` true) the handler returns the remote's full
decoded JSON unchanged. -/
theorem call_method_passthrough (body : CallMethodBody)
    (remote : OutboundRequest → PostOutcome) :
    (call_method body remote).1
      = [{ url := tg_url body.token body.method, body := body.params, timeoutSeconds := 15 }] ∧
    (call_method body remote).1.length = 1 ∧
    (∀ r fields,
      remote { url := tg_url body.token body.method, body := body.params, timeoutSeconds := 15 }
        = .response r →
      200 ≤ r.status ∧ r.status < 300 →
      r.jsonBody = .ok (Json.obj fields) →
      lookupDict fields "ok" = some (Json.bool true) →
      (call_method body remote).2 = .success (Json.obj fields)) := by
  have hreq : tg_request body.token body.method (some body.params)
      = { url := tg_url body.token body.method, body := body.params, timeoutSeconds := 15 } := by
    simp [tg_request, pyOrEmpty_some]
  refine ⟨?_, ?_, ?_⟩
  · simp [call_method, tg_call, hreq]
  · rfl
  · intro r fields hr hs hb hok
    have hraise := raisesForStatus_of_2xx hs
    simp [call_method, tg_call, tryBlock, handleExcept, hreq, hr, hraise, hb, hok, Json.truthy]

theorem call_method_passthrough_witness :
    (call_method ⟨"cred", "getChat", [("chat_id", Json.str "123")]⟩
      (fun _ => .response ⟨200, .ok (Json.obj [("ok", Json.bool true), ("result", Json.str "chat")]), "m"⟩)).2
      = .success (Json.obj [("ok", Json.bool true), ("result", Json.str "chat")]) :=
  (call_method_passthrough ⟨"cred", "getChat", [("chat_id", Json.str "123")]⟩
    (fun _ => .response ⟨200, .ok (Json.obj [("ok", Json.bool true), ("result", Json.str "chat")]), "m"⟩)).2.2
    ⟨200, .ok (Json.obj [("ok", Json.bool true), ("result", Json.str "chat")]), "m"⟩
    [("ok", Json.bool true), ("result", Json.str "chat")]
    rfl (by decide) rfl rfl

/-- C8: whenever the `try` block of `tg_call` raises an `HTTPError`, the
local variable `r` is necessarily bound — the `HTTPError` can only come
from `raise_for_status`, which runs after `r` is assigned — so the
`500`-fallback of the `'r' in locals()` check is unreachable and the
propagated status always equals the remote response's actual status
code. -/
theorem httpError_fallback_unreachable (o : PostOutcome)
    (rB : Option HttpResponse) (msg : String)
    (h : tryBlock o = .raisedHTTPError rB msg) :
    ∃ r, o = .response r ∧ rB = some r ∧ msg = r.httpErrMsg ∧
      raisesForStatus r.status = true ∧
      handleExcept (tryBlock o) = .httpException r.status (transportErrorDetail r) := by
  cases o with
  | failure e => simp [tryBlock] at h
  | response r =>
    by_cases hb : raisesForStatus r.status
    · refine ⟨r, rfl, ?_, ?_, hb, ?_⟩
      · simp [tryBlock, hb] at h
        exact h.1.symm
      · simp [tryBlock, hb] at h
        exact h.2.symm
      · simp [tryBlock, hb, handleExcept, transportErrorDetail]
    · exfalso
      obtain ⟨st, jb, em⟩ := r
      simp only [raisesForStatus] at hb
      rcases jb with m | data
      · simp [tryBlock, raisesForStatus, hb] at h
      · rcases data <;> simp [tryBlock, raisesForStatus, hb] at h
        split at h <;> simp_all

theorem httpError_fallback_unreachable_witness :
    ∃ r, PostOutcome.response (⟨404, .error "nope", "404 Client Error"⟩ : HttpResponse)
        = .response r ∧
      (some (⟨404, .error "nope", "404 Client Error"⟩ : HttpResponse)) = some r ∧
      "404 Client Error" = r.httpErrMsg ∧
      raisesForStatus r.status = true ∧
      handleExcept (tryBlock (.response ⟨404, .error "nope", "404 Client Error"⟩))
        = .httpException r.status (transportErrorDetail r) :=
  httpError_fallback_unreachable
    (.response ⟨404, .error "nope", "404 Client Error"⟩)
    (some ⟨404, .error "nope", "404 Client Error"⟩) "404 Client Error" rfl

/-- C9: if the remote responds with a 2xx transport status and a body
that is valid JSON but not a JSON object, `data.get` raises an unhandled
`AttributeError`: the outcome is neither the success envelope nor any
`HTTPException` failure descriptor. -/
theorem nonobject_json_body_unhandled (token method : String)
    (payload : Option PyDict) (remote : OutboundRequest → PostOutcome)
    (r : HttpResponse) (data : Json)
    (hr : remote (tg_request token method payload) = .response r)
    (hs : 200 ≤ r.status ∧ r.status < 300)
    (hb : r.jsonBody = .ok data)
    (hobj : data.isObj = false) :
    ∃ msg, (tg_call token method payload remote).2 = .pythonError msg ∧
      (∀ d, (tg_call token method payload remote).2 ≠ .success d) ∧
      (∀ s d, (tg_call token method payload remote).2 ≠ .httpException s d) := by
  have hraise := raisesForStatus_of_2xx hs
  have hres : (tg_call token method payload remote).2
      = .pythonError ("AttributeError: " ++ data.pyTypeName ++ " object has no attribute get") := by
    cases data <;> simp_all [tg_call, tryBlock, handleExcept, Json.isObj]
  refine ⟨_, hres, ?_, ?_⟩
  · intro d hd
    rw [hres] at hd
    exact TgResult.noConfusion hd
  · intro s d hd
    rw [hres] at hd
    exact TgResult.noConfusion hd

theorem nonobject_json_body_unhandled_witness :
    ∃ msg, (tg_call "tok" "getMe" none
        (fun _ => .response ⟨200, .ok (Json.arr [Json.num 1]), "m"⟩)).2 = .pythonError msg ∧
      (∀ d, (tg_call "tok" "getMe" none
        (fun _ => .response ⟨200, .ok (Json.arr [Json.num 1]), "m"⟩)).2 ≠ .success d) ∧
      (∀ s d, (tg_call "tok" "getMe" none
        (fun _ => .response ⟨200, .ok (Json.arr [Json.num 1]), "m"⟩)).2 ≠ .httpException s d) :=
  nonobject_json_body_unhandled "tok" "getMe" none
    (fun _ => .response ⟨200, .ok (Json.arr [Json.num 1]), "m"⟩)
    ⟨200, .ok (Json.arr [Json.num 1]), "m"⟩ (Json.arr [Json.num 1])
    rfl (by decide) rfl rfl

/-- C10: `tg_call` with the parameter mapping absent and `tg_call` with
the empty mapping issue identical outbound requests and produce identical
results for every credential, method and remote behaviour; consequently
GenericCall with `params` omitted (pydantic default `{}`) behaves
identically to GenericCall with `params` given as the empty mapping. -/
theorem tg_call_none_eq_empty_payload (token method : String)
    (remote : OutboundRequest → PostOutcome) :
    tg_call token method none remote = tg_call token method (some []) remote ∧
    tg_request token method none = tg_request token method (some []) ∧
    ∀ (tok m : String) (remote2 : OutboundRequest → PostOutcome),
      call_method (CallMethodBody.ofRequest tok m none) remote2
        = call_method (CallMethodBody.ofRequest tok m (some [])) remote2 :=
  ⟨rfl, rfl, fun _ _ _ => rfl⟩
